import Mathlib

/-!
Shallow embedding of `src/include/OpenImageIO/unittest.h`: the
`UnitTestFailureCounter` class, the `pvt::equal_approx` helper, the
`operator<<` helper for vectors, and the `OIIO_CHECK_*` family, modelled
as pure state transformers on a test state that records the counter and
the diagnostics written to standard output.  Machine `int` is modelled
as `Int`, C++ `float` arithmetic as exact rational arithmetic (`ℚ`).
-/

/-- The `UnitTestFailureCounter` class: a single `int m_failures` field,
initialized to 0 by the constructor. -/
structure UnitTestFailureCounter where
  m_failures : Int
deriving DecidableEq, Repr

/-- The default constructor: `m_failures(0)`. -/
def UnitTestFailureCounter.init : UnitTestFailureCounter := ⟨0⟩

/-- `operator++()` (the pre-increment form): `++m_failures; return *this`.
The returned value is the updated counter. -/
def UnitTestFailureCounter.incPre (c : UnitTestFailureCounter) : UnitTestFailureCounter :=
  ⟨c.m_failures + 1⟩

/-- `operator++(int)` (the post-increment form): `return m_failures++`.
Returns the prior stored value together with the updated counter. -/
def UnitTestFailureCounter.incPost (c : UnitTestFailureCounter) : Int × UnitTestFailureCounter :=
  (c.m_failures, ⟨c.m_failures + 1⟩)

/-- `operator+=(int i)`: `m_failures += i; return *this`. -/
def UnitTestFailureCounter.addEq (c : UnitTestFailureCounter) (i : Int) : UnitTestFailureCounter :=
  ⟨c.m_failures + i⟩

/-- `operator int()`: read the current count. -/
def UnitTestFailureCounter.toInt (c : UnitTestFailureCounter) : Int := c.m_failures

/-- The destructor `~UnitTestFailureCounter`: if `m_failures` is nonzero it
prints the red `ERRORS!` banner and calls `std::exit(m_failures != 0)`, so
the process exit code is the C++ `bool`-to-`int` conversion of
`m_failures != 0`, i.e. 1; otherwise it prints the green `OK` banner and
the process later exits normally with code 0.  Result: the banner printed
and the process exit code. -/
def UnitTestFailureCounter.teardown (c : UnitTestFailureCounter) : String × Nat :=
  if c.m_failures ≠ 0 then ("ERRORS!\n", 1) else ("OK\n", 0)

/-- `pvt::equal_approx(x, y)`:
`all(abs((x) - (y)) <= 0.001f * max(abs(x), abs(y)))`; for scalar operands
`all` of a single boolean is that boolean. -/
def equal_approx (x y : ℚ) : Bool :=
  decide (|x - y| ≤ (0.001 : ℚ) * max |x| |y|)

/-- The predicate of `OIIO_CHECK_EQUAL_THRESH`: `std::abs((x) - (y)) <= eps`. -/
def equal_thresh (x y eps : ℚ) : Bool :=
  decide (|x - y| ≤ eps)

/-- The predicate of `OIIO_CHECK_SIMD_EQUAL_THRESH`:
`all(abs((x) - (y)) < (eps))`, element-wise over the SIMD lanes, which we
model as lists zipped pairwise. -/
def simd_equal_thresh (x y : List ℚ) (eps : ℚ) : Bool :=
  (List.zip x y).all fun p => decide (|p.1 - p.2| < eps)

/-- One diagnostic block written to `std::cout` by a failing check: the
source location, the source texts of the operand expressions, and the
stringified runtime values (plus the printed difference for the threshold
and approximate checks). -/
inductive Diag where
  | assertFail (file : String) (line : Nat) (xsrc : String)
  | cmpFail (file : String) (line : Nat) (xsrc op ysrc xval yval : String)
  | threshFail (file : String) (line : Nat) (xsrc ysrc xval yval diff : String)
deriving DecidableEq, Repr

/-- The observable state a check touches: the global `unit_test_failures`
counter and the sequence of diagnostic blocks on standard output. -/
structure TestState where
  counter : UnitTestFailureCounter
  output : List Diag
deriving DecidableEq, Repr

/-- `OIIO_CHECK_ASSERT(x)`: if `x` holds, do nothing; otherwise print one
diagnostic block with the location and the source text of `x`, then
`++unit_test_failures`. -/
def checkAssert (file : String) (line : Nat) (xsrc : String) (x : Bool)
    (s : TestState) : TestState :=
  if x then s
  else { counter := s.counter.incPre
         output := s.output ++ [Diag.assertFail file line xsrc] }

/-- `OIIO_CHECK_EQUAL(x, y)`: if `(x) == (y)`, do nothing; otherwise print
one diagnostic block with the location, `#x == #y`, and the streamed
values of `x` and `y`, then `++unit_test_failures`. -/
def checkEqual {α : Type} [DecidableEq α] [ToString α] (file : String) (line : Nat)
    (xsrc ysrc : String) (x y : α) (s : TestState) : TestState :=
  if x = y then s
  else { counter := s.counter.incPre
         output := s.output ++
           [Diag.cmpFail file line xsrc "==" ysrc (toString x) (toString y)] }

/-- `OIIO_CHECK_EQUAL_THRESH(x, y, eps)`: if `std::abs((x)-(y)) <= eps`, do
nothing; otherwise print one diagnostic block that also shows the computed
difference, then `++unit_test_failures`. -/
def checkEqualThresh (file : String) (line : Nat) (xsrc ysrc : String)
    (x y eps : ℚ) (s : TestState) : TestState :=
  if equal_thresh x y eps then s
  else { counter := s.counter.incPre
         output := s.output ++
           [Diag.threshFail file line xsrc ysrc (toString x) (toString y)
              (toString |x - y|)] }

/-- `OIIO_CHECK_EQUAL_APPROX(x, y)`: if `OIIO::pvt::equal_approx(x, y)`, do
nothing; otherwise print one diagnostic block that also shows `(x) - (y)`,
then `++unit_test_failures`. -/
def checkEqualApprox (file : String) (line : Nat) (xsrc ysrc : String)
    (x y : ℚ) (s : TestState) : TestState :=
  if equal_approx x y then s
  else { counter := s.counter.incPre
         output := s.output ++
           [Diag.threshFail file line xsrc ysrc (toString x) (toString y)
              (toString (x - y))] }

/-- `OIIO_CHECK_SIMD_EQUAL_THRESH(x, y, eps)`: if `all(abs((x)-(y)) < (eps))`,
do nothing; otherwise print one diagnostic block, then
`++unit_test_failures`. -/
def checkSimdEqualThresh (file : String) (line : Nat) (xsrc ysrc : String)
    (x y : List ℚ) (eps : ℚ) (s : TestState) : TestState :=
  if simd_equal_thresh x y eps then s
  else { counter := s.counter.incPre
         output := s.output ++
           [Diag.cmpFail file line xsrc "==" ysrc (toString x) (toString y)] }

/-- `OIIO_CHECK_NE(x, y)`: if `(x) != (y)`, do nothing; otherwise print one
diagnostic block, then `++unit_test_failures`. -/
def checkNE {α : Type} [DecidableEq α] [ToString α] (file : String) (line : Nat)
    (xsrc ysrc : String) (x y : α) (s : TestState) : TestState :=
  if x ≠ y then s
  else { counter := s.counter.incPre
         output := s.output ++
           [Diag.cmpFail file line xsrc "!=" ysrc (toString x) (toString y)] }

/-- `OIIO_CHECK_LT(x, y)`: if `(x) < (y)`, do nothing; otherwise print one
diagnostic block, then `++unit_test_failures`. -/
def checkLT {α : Type} [LinearOrder α] [ToString α] (file : String) (line : Nat)
    (xsrc ysrc : String) (x y : α) (s : TestState) : TestState :=
  if x < y then s
  else { counter := s.counter.incPre
         output := s.output ++
           [Diag.cmpFail file line xsrc "<" ysrc (toString x) (toString y)] }

/-- `OIIO_CHECK_GT(x, y)`: if `(x) > (y)`, do nothing; otherwise print one
diagnostic block, then `++unit_test_failures`. -/
def checkGT {α : Type} [LinearOrder α] [ToString α] (file : String) (line : Nat)
    (xsrc ysrc : String) (x y : α) (s : TestState) : TestState :=
  if x > y then s
  else { counter := s.counter.incPre
         output := s.output ++
           [Diag.cmpFail file line xsrc ">" ysrc (toString x) (toString y)] }

/-- `OIIO_CHECK_LE(x, y)`: if `(x) <= (y)`, do nothing; otherwise print one
diagnostic block, then `++unit_test_failures`. -/
def checkLE {α : Type} [LinearOrder α] [ToString α] (file : String) (line : Nat)
    (xsrc ysrc : String) (x y : α) (s : TestState) : TestState :=
  if x ≤ y then s
  else { counter := s.counter.incPre
         output := s.output ++
           [Diag.cmpFail file line xsrc "<=" ysrc (toString x) (toString y)] }

/-- `OIIO_CHECK_GE(x, y)`: if `(x) >= (y)`, do nothing; otherwise print one
diagnostic block, then `++unit_test_failures`. -/
def checkGE {α : Type} [LinearOrder α] [ToString α] (file : String) (line : Nat)
    (xsrc ysrc : String) (x y : α) (s : TestState) : TestState :=
  if x ≥ y then s
  else { counter := s.counter.incPre
         output := s.output ++
           [Diag.cmpFail file line xsrc ">=" ysrc (toString x) (toString y)] }

/-- The predicate of `OIIO_CHECK_SIMD_EQUAL`: `all((x) == (y))`,
element-wise over the SIMD lanes, modelled as lists zipped pairwise. -/
def simd_equal (x y : List ℚ) : Bool :=
  (List.zip x y).all fun p => decide (p.1 = p.2)

/-- `OIIO_CHECK_SIMD_EQUAL(x, y)`: if `all((x) == (y))`, do nothing;
otherwise print one diagnostic block, then `++unit_test_failures`. -/
def checkSimdEqual (file : String) (line : Nat) (xsrc ysrc : String)
    (x y : List ℚ) (s : TestState) : TestState :=
  if simd_equal x y then s
  else { counter := s.counter.incPre
         output := s.output ++
           [Diag.cmpFail file line xsrc "==" ysrc (toString x) (toString y)] }

/-- The operand source texts a diagnostic block carries: one for a failed
`OIIO_CHECK_ASSERT`, two for every two-operand check. -/
def Diag.srcs : Diag → List String
  | .assertFail _ _ xsrc => [xsrc]
  | .cmpFail _ _ xsrc _ ysrc _ _ => [xsrc, ysrc]
  | .threshFail _ _ xsrc ysrc _ _ _ => [xsrc, ysrc]

/-- The stringified runtime operand values a diagnostic block carries: none
for a failed `OIIO_CHECK_ASSERT`, both operands for every two-operand
check. -/
def Diag.vals : Diag → List String
  | .assertFail _ _ _ => []
  | .cmpFail _ _ _ _ _ xval yval => [xval, yval]
  | .threshFail _ _ _ _ xval yval _ => [xval, yval]

/-- Helper for the end-to-end scenario of the spec: run a sequence of
`OIIO_CHECK_EQUAL` checks on `Int` pairs, threading the test state. -/
def runEqualChecks (ps : List (Int × Int)) (s : TestState) : TestState :=
  ps.foldl (fun acc p => checkEqual "t.cpp" 1 "x" "y" p.1 p.2 acc) s

/-- End-to-end scenario 4 of the spec: ten `OIIO_CHECK_EQUAL` checks of
which exactly three fail, starting from a fresh counter and empty output. -/
def scenarioTen : TestState :=
  runEqualChecks
    [(1, 1), (2, 2), (3, 4), (5, 5), (6, 7), (8, 8), (9, 9), (10, 10),
     (11, 12), (13, 13)]
    ⟨UnitTestFailureCounter.init, []⟩

/-- C10: `pvt::equal_approx` is symmetric: both `abs(x - y)` and
`max(abs x, abs y)` are symmetric in their arguments. -/
theorem equal_approx_symm (x y : ℚ) : equal_approx x y = equal_approx y x := by
  simp only [equal_approx, abs_sub_comm x y, max_comm |x| |y|]

/-- C4: `pvt::equal_approx(x, y)` holds exactly when
`|x - y| ≤ 0.001 * max |x| |y|`, and in particular the boundary case
`x = y = 0` passes (both sides of the comparison are zero). -/
theorem equal_approx_iff (x y : ℚ) :
    (equal_approx x y = true ↔ |x - y| ≤ (0.001 : ℚ) * max |x| |y|) ∧
    equal_approx 0 0 = true := by
  refine ⟨?_, by norm_num [equal_approx]⟩
  simp [equal_approx]

/-- C1 counterexample: a failing `OIIO_CHECK_ASSERT` prints exactly one
diagnostic block, but that block carries only the source text of its single
operand and no stringified runtime values, so the claim — quantified over
every check — fails at the ASSERT check. -/
theorem checkAssert_fail_no_values :
    (checkAssert "t.cpp" 5 "cond" false ⟨⟨0⟩, []⟩).output
        = [Diag.assertFail "t.cpp" 5 "cond"] ∧
    List.map Diag.vals (checkAssert "t.cpp" 5 "cond" false ⟨⟨0⟩, []⟩).output
        = [[]] ∧
    List.map Diag.srcs (checkAssert "t.cpp" 5 "cond" false ⟨⟨0⟩, []⟩).output
        = [["cond"]] := by
  decide

/-- C1 (amended): every failing check increments the counter by exactly one
and appends exactly one diagnostic block; for the ten two-operand checks
the block carries the source texts of both operands and their stringified
runtime values, while a failing `OIIO_CHECK_ASSERT` block carries only the
source text of its single operand and no runtime values. -/
theorem check_fail_effect (file : String) (line : Nat) (xsrc ysrc : String)
    (s : TestState) :
    ((checkAssert file line xsrc false s).counter.m_failures
        = s.counter.m_failures + 1 ∧
     (checkAssert file line xsrc false s).output
        = s.output ++ [Diag.assertFail file line xsrc]) ∧
    (∀ (α : Type) (_de : DecidableEq α) (_ts : ToString α) (x y : α), x ≠ y →
      (checkEqual file line xsrc ysrc x y s).counter.m_failures
          = s.counter.m_failures + 1 ∧
      (checkEqual file line xsrc ysrc x y s).output
          = s.output ++
              [Diag.cmpFail file line xsrc "==" ysrc (toString x) (toString y)]) ∧
    (∀ (α : Type) (_de : DecidableEq α) (_ts : ToString α) (x y : α), x = y →
      (checkNE file line xsrc ysrc x y s).counter.m_failures
          = s.counter.m_failures + 1 ∧
      (checkNE file line xsrc ysrc x y s).output
          = s.output ++
              [Diag.cmpFail file line xsrc "!=" ysrc (toString x) (toString y)]) ∧
    (∀ (α : Type) (_lo : LinearOrder α) (_ts : ToString α) (x y : α), ¬ x < y →
      (checkLT file line xsrc ysrc x y s).counter.m_failures
          = s.counter.m_failures + 1 ∧
      (checkLT file line xsrc ysrc x y s).output
          = s.output ++
              [Diag.cmpFail file line xsrc "<" ysrc (toString x) (toString y)]) ∧
    (∀ (α : Type) (_lo : LinearOrder α) (_ts : ToString α) (x y : α), ¬ x > y →
      (checkGT file line xsrc ysrc x y s).counter.m_failures
          = s.counter.m_failures + 1 ∧
      (checkGT file line xsrc ysrc x y s).output
          = s.output ++
              [Diag.cmpFail file line xsrc ">" ysrc (toString x) (toString y)]) ∧
    (∀ (α : Type) (_lo : LinearOrder α) (_ts : ToString α) (x y : α), ¬ x ≤ y →
      (checkLE file line xsrc ysrc x y s).counter.m_failures
          = s.counter.m_failures + 1 ∧
      (checkLE file line xsrc ysrc x y s).output
          = s.output ++
              [Diag.cmpFail file line xsrc "<=" ysrc (toString x) (toString y)]) ∧
    (∀ (α : Type) (_lo : LinearOrder α) (_ts : ToString α) (x y : α), ¬ x ≥ y →
      (checkGE file line xsrc ysrc x y s).counter.m_failures
          = s.counter.m_failures + 1 ∧
      (checkGE file line xsrc ysrc x y s).output
          = s.output ++
              [Diag.cmpFail file line xsrc ">=" ysrc (toString x) (toString y)]) ∧
    (∀ x y eps : ℚ, equal_thresh x y eps = false →
      (checkEqualThresh file line xsrc ysrc x y eps s).counter.m_failures
          = s.counter.m_failures + 1 ∧
      (checkEqualThresh file line xsrc ysrc x y eps s).output
          = s.output ++
              [Diag.threshFail file line xsrc ysrc (toString x) (toString y)
                 (toString |x - y|)]) ∧
    (∀ x y : ℚ, equal_approx x y = false →
      (checkEqualApprox file line xsrc ysrc x y s).counter.m_failures
          = s.counter.m_failures + 1 ∧
      (checkEqualApprox file line xsrc ysrc x y s).output
          = s.output ++
              [Diag.threshFail file line xsrc ysrc (toString x) (toString y)
                 (toString (x - y))]) ∧
    (∀ x y : List ℚ, simd_equal x y = false →
      (checkSimdEqual file line xsrc ysrc x y s).counter.m_failures
          = s.counter.m_failures + 1 ∧
      (checkSimdEqual file line xsrc ysrc x y s).output
          = s.output ++
              [Diag.cmpFail file line xsrc "==" ysrc (toString x) (toString y)]) ∧
    (∀ (x y : List ℚ) (eps : ℚ), simd_equal_thresh x y eps = false →
      (checkSimdEqualThresh file line xsrc ysrc x y eps s).counter.m_failures
          = s.counter.m_failures + 1 ∧
      (checkSimdEqualThresh file line xsrc ysrc x y eps s).output
          = s.output ++
              [Diag.cmpFail file line xsrc "==" ysrc (toString x) (toString y)]) := by
  refine ⟨?_, ?_, ?_, ?_, ?_, ?_, ?_, ?_, ?_, ?_, ?_⟩
  · simp [checkAssert, UnitTestFailureCounter.incPre]
  · intro α _de _ts x y h
    simp [checkEqual, h, UnitTestFailureCounter.incPre]
  · intro α _de _ts x y h
    simp [checkNE, h, UnitTestFailureCounter.incPre]
  · intro α _lo _ts x y h
    simp [checkLT, h, UnitTestFailureCounter.incPre]
  · intro α _lo _ts x y h
    simp [checkGT, h, UnitTestFailureCounter.incPre]
  · intro α _lo _ts x y h
    simp [checkLE, h, UnitTestFailureCounter.incPre]
  · intro α _lo _ts x y h
    simp [checkGE, h, UnitTestFailureCounter.incPre]
  · intro x y eps h
    simp [checkEqualThresh, h, UnitTestFailureCounter.incPre]
  · intro x y h
    simp [checkEqualApprox, h, UnitTestFailureCounter.incPre]
  · intro x y h
    simp [checkSimdEqual, h, UnitTestFailureCounter.incPre]
  · intro x y eps h
    simp [checkSimdEqualThresh, h, UnitTestFailureCounter.incPre]

/-- Witness for the amended C1: each of the eleven checks exercised at a
concrete failing input from a fresh state. -/
theorem check_fail_effect_witness :
    (checkAssert "t.cpp" 1 "a" false ⟨⟨0⟩, []⟩).counter.m_failures = 0 + 1 ∧
    (checkEqual "t.cpp" 1 "a" "b" (5 : Int) 6 ⟨⟨0⟩, []⟩).counter.m_failures
        = 0 + 1 ∧
    (checkNE "t.cpp" 1 "a" "b" (7 : Int) 7 ⟨⟨0⟩, []⟩).counter.m_failures
        = 0 + 1 ∧
    (checkLT "t.cpp" 1 "a" "b" (2 : Int) 1 ⟨⟨0⟩, []⟩).counter.m_failures
        = 0 + 1 ∧
    (checkGT "t.cpp" 1 "a" "b" (1 : Int) 2 ⟨⟨0⟩, []⟩).counter.m_failures
        = 0 + 1 ∧
    (checkLE "t.cpp" 1 "a" "b" (2 : Int) 1 ⟨⟨0⟩, []⟩).counter.m_failures
        = 0 + 1 ∧
    (checkGE "t.cpp" 1 "a" "b" (1 : Int) 2 ⟨⟨0⟩, []⟩).counter.m_failures
        = 0 + 1 ∧
    (checkEqualThresh "t.cpp" 1 "a" "b" 0 3 1 ⟨⟨0⟩, []⟩).counter.m_failures
        = 0 + 1 ∧
    (checkEqualApprox "t.cpp" 1 "a" "b" 1 (-1) ⟨⟨0⟩, []⟩).counter.m_failures
        = 0 + 1 ∧
    (checkSimdEqual "t.cpp" 1 "a" "b" [1] [2] ⟨⟨0⟩, []⟩).counter.m_failures
        = 0 + 1 ∧
    (checkSimdEqualThresh "t.cpp" 1 "a" "b" [0] [3] 1
        ⟨⟨0⟩, []⟩).counter.m_failures = 0 + 1 := by
  have T := check_fail_effect "t.cpp" 1 "a" "b" ⟨⟨0⟩, []⟩
  exact ⟨T.1.1,
    (T.2.1 Int inferInstance inferInstance 5 6 (by decide)).1,
    (T.2.2.1 Int inferInstance inferInstance 7 7 rfl).1,
    (T.2.2.2.1 Int inferInstance inferInstance 2 1 (by decide)).1,
    (T.2.2.2.2.1 Int inferInstance inferInstance 1 2 (by decide)).1,
    (T.2.2.2.2.2.1 Int inferInstance inferInstance 2 1 (by decide)).1,
    (T.2.2.2.2.2.2.1 Int inferInstance inferInstance 1 2 (by decide)).1,
    (T.2.2.2.2.2.2.2.1 0 3 1 (by norm_num [equal_thresh])).1,
    (T.2.2.2.2.2.2.2.2.1 1 (-1) (by norm_num [equal_approx])).1,
    (T.2.2.2.2.2.2.2.2.2.1 [1] [2] (by norm_num [simd_equal, List.zip])).1,
    (T.2.2.2.2.2.2.2.2.2.2 [0] [3] 1
      (by norm_num [simd_equal_thresh, List.zip])).1⟩

/-- C2: when the predicate of a check is true, the whole test state —
failure counter and output — is unchanged, for every one of the eleven
check forms. -/
theorem check_pass_no_effect (file : String) (line : Nat) (xsrc ysrc : String)
    (s : TestState) :
    (checkAssert file line xsrc true s = s) ∧
    (∀ (α : Type) (_de : DecidableEq α) (_ts : ToString α) (x y : α), x = y →
        checkEqual file line xsrc ysrc x y s = s) ∧
    (∀ (α : Type) (_de : DecidableEq α) (_ts : ToString α) (x y : α), x ≠ y →
        checkNE file line xsrc ysrc x y s = s) ∧
    (∀ (α : Type) (_lo : LinearOrder α) (_ts : ToString α) (x y : α), x < y →
        checkLT file line xsrc ysrc x y s = s) ∧
    (∀ (α : Type) (_lo : LinearOrder α) (_ts : ToString α) (x y : α), x > y →
        checkGT file line xsrc ysrc x y s = s) ∧
    (∀ (α : Type) (_lo : LinearOrder α) (_ts : ToString α) (x y : α), x ≤ y →
        checkLE file line xsrc ysrc x y s = s) ∧
    (∀ (α : Type) (_lo : LinearOrder α) (_ts : ToString α) (x y : α), x ≥ y →
        checkGE file line xsrc ysrc x y s = s) ∧
    (∀ x y eps : ℚ, equal_thresh x y eps = true →
        checkEqualThresh file line xsrc ysrc x y eps s = s) ∧
    (∀ x y : ℚ, equal_approx x y = true →
        checkEqualApprox file line xsrc ysrc x y s = s) ∧
    (∀ x y : List ℚ, simd_equal x y = true →
        checkSimdEqual file line xsrc ysrc x y s = s) ∧
    (∀ (x y : List ℚ) (eps : ℚ), simd_equal_thresh x y eps = true →
        checkSimdEqualThresh file line xsrc ysrc x y eps s = s) := by
  refine ⟨?_, ?_, ?_, ?_, ?_, ?_, ?_, ?_, ?_, ?_, ?_⟩
  · simp [checkAssert]
  · intro α _de _ts x y h
    simp [checkEqual, h]
  · intro α _de _ts x y h
    simp [checkNE, h]
  · intro α _lo _ts x y h
    simp [checkLT, h]
  · intro α _lo _ts x y h
    simp [checkGT, h]
  · intro α _lo _ts x y h
    simp [checkLE, h]
  · intro α _lo _ts x y h
    simp [checkGE, h]
  · intro x y eps h
    simp [checkEqualThresh, h]
  · intro x y h
    simp [checkEqualApprox, h]
  · intro x y h
    simp [checkSimdEqual, h]
  · intro x y eps h
    simp [checkSimdEqualThresh, h]

/-- Witness for C2: each of the eleven checks exercised at a concrete
passing input from a fresh state. -/
theorem check_pass_no_effect_witness :
    (checkAssert "t.cpp" 3 "a" true ⟨⟨0⟩, []⟩ = ⟨⟨0⟩, []⟩) ∧
    (checkEqual "t.cpp" 3 "a" "b" (5 : Int) 5 ⟨⟨0⟩, []⟩ = ⟨⟨0⟩, []⟩) ∧
    (checkNE "t.cpp" 3 "a" "b" (5 : Int) 6 ⟨⟨0⟩, []⟩ = ⟨⟨0⟩, []⟩) ∧
    (checkLT "t.cpp" 3 "a" "b" (1 : Int) 2 ⟨⟨0⟩, []⟩ = ⟨⟨0⟩, []⟩) ∧
    (checkGT "t.cpp" 3 "a" "b" (2 : Int) 1 ⟨⟨0⟩, []⟩ = ⟨⟨0⟩, []⟩) ∧
    (checkLE "t.cpp" 3 "a" "b" (1 : Int) 1 ⟨⟨0⟩, []⟩ = ⟨⟨0⟩, []⟩) ∧
    (checkGE "t.cpp" 3 "a" "b" (2 : Int) 2 ⟨⟨0⟩, []⟩ = ⟨⟨0⟩, []⟩) ∧
    (checkEqualThresh "t.cpp" 3 "a" "b" 1 1 0 ⟨⟨0⟩, []⟩ = ⟨⟨0⟩, []⟩) ∧
    (checkEqualApprox "t.cpp" 3 "a" "b" 0 0 ⟨⟨0⟩, []⟩ = ⟨⟨0⟩, []⟩) ∧
    (checkSimdEqual "t.cpp" 3 "a" "b" [1] [1] ⟨⟨0⟩, []⟩ = ⟨⟨0⟩, []⟩) ∧
    (checkSimdEqualThresh "t.cpp" 3 "a" "b" [0] [0] 1 ⟨⟨0⟩, []⟩
        = ⟨⟨0⟩, []⟩) := by
  have T := check_pass_no_effect "t.cpp" 3 "a" "b" ⟨⟨0⟩, []⟩
  exact ⟨T.1,
    T.2.1 Int inferInstance inferInstance 5 5 rfl,
    T.2.2.1 Int inferInstance inferInstance 5 6 (by decide),
    T.2.2.2.1 Int inferInstance inferInstance 1 2 (by decide),
    T.2.2.2.2.1 Int inferInstance inferInstance 2 1 (by decide),
    T.2.2.2.2.2.1 Int inferInstance inferInstance 1 1 (by decide),
    T.2.2.2.2.2.2.1 Int inferInstance inferInstance 2 2 (by decide),
    T.2.2.2.2.2.2.2.1 1 1 0 (by norm_num [equal_thresh]),
    T.2.2.2.2.2.2.2.2.1 0 0 (by norm_num [equal_approx]),
    T.2.2.2.2.2.2.2.2.2.1 [1] [1] (by norm_num [simd_equal, List.zip]),
    T.2.2.2.2.2.2.2.2.2.2 [0] [0] 1
      (by norm_num [simd_equal_thresh, List.zip])⟩

/-- C3: at teardown the exit code is 0 when the cumulative count is zero and
exactly 1 when it is nonzero, however large; in the ten-checks scenario with
three failures the final counter is 3 yet the exit code is 1, not 3. -/
theorem teardown_exit (c : UnitTestFailureCounter) :
    (c.toInt = 0 → c.teardown = ("OK\n", 0)) ∧
    (c.toInt ≠ 0 → c.teardown = ("ERRORS!\n", 1)) ∧
    (scenarioTen.counter.toInt = 3 ∧ scenarioTen.counter.teardown.2 = 1) := by
  refine ⟨fun h => ?_, fun h => ?_, by decide, by decide⟩
  · simp [UnitTestFailureCounter.teardown, UnitTestFailureCounter.toInt] at h ⊢
    simp [h]
  · simp [UnitTestFailureCounter.teardown, UnitTestFailureCounter.toInt] at h ⊢
    simp [h]

/-- Witness for C3 at counters 0 and 3. -/
theorem teardown_exit_witness :
    (UnitTestFailureCounter.teardown ⟨0⟩ = ("OK\n", 0)) ∧
    (UnitTestFailureCounter.teardown ⟨3⟩ = ("ERRORS!\n", 1)) :=
  ⟨(teardown_exit ⟨0⟩).1 rfl, (teardown_exit ⟨3⟩).2.1 (by decide)⟩

/-- C5: `OIIO_CHECK_EQUAL_THRESH` passes — leaves the test state untouched —
exactly when `|x - y| ≤ eps`, and the boundary `|x - y| = eps` is inclusive
(the check passes there). -/
theorem checkEqualThresh_pass_iff (file : String) (line : Nat)
    (xsrc ysrc : String) (x y eps : ℚ) (s : TestState) :
    (checkEqualThresh file line xsrc ysrc x y eps s = s ↔ |x - y| ≤ eps) ∧
    (|x - y| = eps → checkEqualThresh file line xsrc ysrc x y eps s = s) := by
  have hiff : checkEqualThresh file line xsrc ysrc x y eps s = s ↔ |x - y| ≤ eps := by
    constructor
    · intro h
      by_contra hle
      have hc : (checkEqualThresh file line xsrc ysrc x y eps s).counter.m_failures
          = s.counter.m_failures + 1 := by
        simp [checkEqualThresh, equal_thresh, hle, UnitTestFailureCounter.incPre]
      rw [h] at hc
      omega
    · intro hle
      simp [checkEqualThresh, equal_thresh, hle]
  exact ⟨hiff, fun h => hiff.mpr (le_of_eq h)⟩

/-- Witness for C5 at `x = 3`, `y = 1`, `eps = 2`: the difference equals the
tolerance exactly and the check passes. -/
theorem checkEqualThresh_pass_iff_witness :
    (|(3 : ℚ) - 1| = 2) ∧
    checkEqualThresh "t.cpp" 7 "x" "y" 3 1 2 ⟨⟨0⟩, []⟩ = ⟨⟨0⟩, []⟩ :=
  ⟨by norm_num,
   (checkEqualThresh_pass_iff "t.cpp" 7 "x" "y" 3 1 2 ⟨⟨0⟩, []⟩).2 (by norm_num)⟩

/-- C6: the SIMD threshold predicate holds exactly when every lane satisfies
the strict bound `|xᵢ - yᵢ| < eps`; a lane whose difference equals `eps`
makes it fail, unlike the scalar threshold predicate, which passes there. -/
theorem simd_equal_thresh_strict (x y : List ℚ) (eps a b : ℚ) :
    (simd_equal_thresh x y eps = true ↔
      ∀ p ∈ List.zip x y, |p.1 - p.2| < eps) ∧
    (|a - b| = eps →
      simd_equal_thresh [a] [b] eps = false ∧ equal_thresh a b eps = true) := by
  constructor
  · simp [simd_equal_thresh]
  · intro h
    refine ⟨?_, by simp [equal_thresh, le_of_eq h]⟩
    simp [simd_equal_thresh, List.zip, h]

/-- Witness for C6 at single lanes `x = [0]`, `y = [2]`, `eps = 2`. -/
theorem simd_equal_thresh_strict_witness :
    (|(0 : ℚ) - 2| = 2) ∧
    (simd_equal_thresh [(0 : ℚ)] [2] 2 = false ∧ equal_thresh 0 2 2 = true) :=
  ⟨by norm_num,
   (simd_equal_thresh_strict [] [] 2 0 2).2 (by norm_num)⟩

/-- C7 counterexample: the compound-add operation the counter exposes can
decrease the stored count — `operator+=` with a negative delta takes a
counter holding 5 down to 4. -/
theorem counter_addEq_decreases :
    (UnitTestFailureCounter.addEq ⟨5⟩ (-1)).m_failures
      < (⟨5⟩ : UnitTestFailureCounter).m_failures := by
  decide

/-- C7 (amended): both increment forms never decrease the stored count, and
compound add never decreases it when the delta is non-negative. -/
theorem counter_ops_monotone (c : UnitTestFailureCounter) (i : Int)
    (h : 0 ≤ i) :
    c.m_failures ≤ c.incPre.m_failures ∧
    c.m_failures ≤ c.incPost.2.m_failures ∧
    c.m_failures ≤ (c.addEq i).m_failures := by
  refine ⟨?_, ?_, ?_⟩
  · simp only [UnitTestFailureCounter.incPre]
    omega
  · simp only [UnitTestFailureCounter.incPost]
    omega
  · simp only [UnitTestFailureCounter.addEq]
    omega

/-- Witness for the amended C7 at counter 2 and delta 3. -/
theorem counter_ops_monotone_witness :
    (0 : Int) ≤ 3 ∧
    ((⟨2⟩ : UnitTestFailureCounter).m_failures
        ≤ (⟨2⟩ : UnitTestFailureCounter).incPre.m_failures ∧
     (⟨2⟩ : UnitTestFailureCounter).m_failures
        ≤ (⟨2⟩ : UnitTestFailureCounter).incPost.2.m_failures ∧
     (⟨2⟩ : UnitTestFailureCounter).m_failures
        ≤ ((⟨2⟩ : UnitTestFailureCounter).addEq 3).m_failures) :=
  ⟨by decide, counter_ops_monotone ⟨2⟩ 3 (by decide)⟩

/-- C8: no check aborts or throws: for every input, each of the eleven
checks produces a defined successor state that either equals the input
state or differs from it only by one counter increment and one appended
diagnostic block; execution always continues with that state. -/
theorem checks_never_abort (file : String) (line : Nat) (xsrc ysrc : String)
    (s : TestState) :
    (∀ b : Bool,
      checkAssert file line xsrc b s = s ∨
      checkAssert file line xsrc b s
        = ⟨s.counter.incPre, s.output ++ [Diag.assertFail file line xsrc]⟩) ∧
    (∀ (α : Type) (_de : DecidableEq α) (_ts : ToString α) (x y : α),
      checkEqual file line xsrc ysrc x y s = s ∨
      checkEqual file line xsrc ysrc x y s
        = ⟨s.counter.incPre,
           s.output ++
             [Diag.cmpFail file line xsrc "==" ysrc (toString x)
                (toString y)]⟩) ∧
    (∀ (α : Type) (_de : DecidableEq α) (_ts : ToString α) (x y : α),
      checkNE file line xsrc ysrc x y s = s ∨
      checkNE file line xsrc ysrc x y s
        = ⟨s.counter.incPre,
           s.output ++
             [Diag.cmpFail file line xsrc "!=" ysrc (toString x)
                (toString y)]⟩) ∧
    (∀ (α : Type) (_lo : LinearOrder α) (_ts : ToString α) (x y : α),
      checkLT file line xsrc ysrc x y s = s ∨
      checkLT file line xsrc ysrc x y s
        = ⟨s.counter.incPre,
           s.output ++
             [Diag.cmpFail file line xsrc "<" ysrc (toString x)
                (toString y)]⟩) ∧
    (∀ (α : Type) (_lo : LinearOrder α) (_ts : ToString α) (x y : α),
      checkGT file line xsrc ysrc x y s = s ∨
      checkGT file line xsrc ysrc x y s
        = ⟨s.counter.incPre,
           s.output ++
             [Diag.cmpFail file line xsrc ">" ysrc (toString x)
                (toString y)]⟩) ∧
    (∀ (α : Type) (_lo : LinearOrder α) (_ts : ToString α) (x y : α),
      checkLE file line xsrc ysrc x y s = s ∨
      checkLE file line xsrc ysrc x y s
        = ⟨s.counter.incPre,
           s.output ++
             [Diag.cmpFail file line xsrc "<=" ysrc (toString x)
                (toString y)]⟩) ∧
    (∀ (α : Type) (_lo : LinearOrder α) (_ts : ToString α) (x y : α),
      checkGE file line xsrc ysrc x y s = s ∨
      checkGE file line xsrc ysrc x y s
        = ⟨s.counter.incPre,
           s.output ++
             [Diag.cmpFail file line xsrc ">=" ysrc (toString x)
                (toString y)]⟩) ∧
    (∀ x y eps : ℚ,
      checkEqualThresh file line xsrc ysrc x y eps s = s ∨
      checkEqualThresh file line xsrc ysrc x y eps s
        = ⟨s.counter.incPre,
           s.output ++
             [Diag.threshFail file line xsrc ysrc (toString x) (toString y)
                (toString |x - y|)]⟩) ∧
    (∀ x y : ℚ,
      checkEqualApprox file line xsrc ysrc x y s = s ∨
      checkEqualApprox file line xsrc ysrc x y s
        = ⟨s.counter.incPre,
           s.output ++
             [Diag.threshFail file line xsrc ysrc (toString x) (toString y)
                (toString (x - y))]⟩) ∧
    (∀ x y : List ℚ,
      checkSimdEqual file line xsrc ysrc x y s = s ∨
      checkSimdEqual file line xsrc ysrc x y s
        = ⟨s.counter.incPre,
           s.output ++
             [Diag.cmpFail file line xsrc "==" ysrc (toString x)
                (toString y)]⟩) ∧
    (∀ (x y : List ℚ) (eps : ℚ),
      checkSimdEqualThresh file line xsrc ysrc x y eps s = s ∨
      checkSimdEqualThresh file line xsrc ysrc x y eps s
        = ⟨s.counter.incPre,
           s.output ++
             [Diag.cmpFail file line xsrc "==" ysrc (toString x)
                (toString y)]⟩) := by
  refine ⟨?_, ?_, ?_, ?_, ?_, ?_, ?_, ?_, ?_, ?_, ?_⟩
  · intro b
    by_cases hb : b = true <;> simp [checkAssert, hb]
  · intro α _de _ts x y
    by_cases h : x = y <;> simp [checkEqual, h]
  · intro α _de _ts x y
    by_cases h : x = y <;> simp [checkNE, h]
  · intro α _lo _ts x y
    by_cases h : x < y <;> simp [checkLT, h]
  · intro α _lo _ts x y
    by_cases h : x > y <;> simp [checkGT, h]
  · intro α _lo _ts x y
    by_cases h : x ≤ y <;> simp [checkLE, h]
  · intro α _lo _ts x y
    by_cases h : x ≥ y <;> simp [checkGE, h]
  · intro x y eps
    cases h : equal_thresh x y eps <;> simp [checkEqualThresh, h]
  · intro x y
    cases h : equal_approx x y <;> simp [checkEqualApprox, h]
  · intro x y
    cases h : simd_equal x y <;> simp [checkSimdEqual, h]
  · intro x y eps
    cases h : simd_equal_thresh x y eps <;> simp [checkSimdEqualThresh, h]

/-- Modelled from the spec: `OIIO::Strutil::join(v, ",")` is declared in
`strutil.h`, which is not under `src/`.  Per the spec a sequence is rendered
"as a brace-delimited, comma-joined string", so `join` renders every element
in its standard textual form and joins them with the separator. -/
def join {T : Type} [ToString T] (v : List T) (sep : String) : String :=
  String.intercalate sep (v.map toString)

/-- `operator<<(std::ostream& out, const std::vector<T>& v)`:
`out << '\x7b' << OIIO::Strutil::join(v, ",") << '\x7d'`. -/
def renderVector {T : Type} [ToString T] (v : List T) : String :=
  "\x7b" ++ join v "," ++ "\x7d"

/-- The spec's expected joined form `v1,v2,...,vn`, stated independently by
recursion: a comma between each adjacent pair of element texts. -/
def specJoin : List String → String
  | [] => ""
  | [a] => a
  | a :: b :: rest => a ++ "," ++ specJoin (b :: rest)

/-- The spec's expected rendered form for a sequence of printable values. -/
def specRender {T : Type} [ToString T] (v : List T) : String :=
  "\x7b" ++ specJoin (v.map toString) ++ "\x7d"

/-- The comma-led tail of a joined list, used to relate the accumulator
recursion of `String.intercalate` to `specJoin`. -/
def sepTail : List String → String
  | [] => ""
  | a :: as => "," ++ a ++ sepTail as

theorem intercalate_go_eq (l : List String) (acc : String) :
    String.intercalate.go acc "," l = acc ++ sepTail l := by
  induction l generalizing acc with
  | nil => simp [String.intercalate.go, sepTail]
  | cons a as ih =>
    simp [String.intercalate.go, sepTail, ih, String.append_assoc]

theorem specJoin_eq_sepTail : ∀ a as, specJoin (a :: as) = a ++ sepTail as
  | _, [] => by simp [specJoin, sepTail]
  | a, b :: rest => by
    simp [specJoin, sepTail, specJoin_eq_sepTail b rest, String.append_assoc]

theorem intercalate_eq_specJoin (l : List String) :
    String.intercalate "," l = specJoin l := by
  cases l with
  | nil => rfl
  | cons a as =>
    show String.intercalate.go a "," as = _
    rw [intercalate_go_eq, specJoin_eq_sepTail]

/-- C9: the vector-printing helper renders any ordered sequence of printable
values as the brace-delimited, comma-joined string the spec describes, and
the sequence `[1, 2, 3]` renders exactly as `\x7b1,2,3\x7d`. -/
theorem renderVector_spec :
    (∀ (T : Type) (inst : ToString T) (v : List T),
        renderVector v = specRender v) ∧
    renderVector ([1, 2, 3] : List Int) = "\x7b1,2,3\x7d" := by
  have h : ∀ (T : Type) (inst : ToString T) (v : List T),
      renderVector v = specRender v := by
    intro T _inst v
    simp [renderVector, specRender, join, intercalate_eq_specJoin]
  exact ⟨h, by rw [h]; decide⟩
